import Mathlib

/-!
# NTP client (`ntp.c`, `ntp.h`): shallow embedding and verified properties

Modelling conventions.

* The target is an LP64 platform: `time_t`, `long` and `int64_t` are 64-bit signed, `size_t` is
  64-bit unsigned, `int` is 32-bit signed, `uint32_t` is 32-bit unsigned.
* Unsigned 32-bit values are natural numbers, reduced `% 2^32` after every operation that can
  leave the range.  Signed 64-bit values are integers; every signed operation is followed by the
  two's-complement wrap `wrap64`.  Theorems that depend on the absence of signed overflow carry
  explicit range hypotheses.
* The host byte order is a parameter (`Endian`).  `htonl`/`ntohl` are the identity on a big-endian
  host and a byte swap on a little-endian host; the packet structure is twelve `uint32_t` fields
  without padding, so its memory image is the concatenation of the host-order images of the
  fields.
* The socket primitives and the wall clock are external: their results are the fields of `Env`,
  and the calls the code makes are recorded in a trace of `Event`s.
-/

namespace Ntp

/-! ## Machine integers -/

/-- Two's-complement reduction of an integer to the `int64_t` range. -/
def wrap64 (x : Int) : Int :=
  (x + 9223372036854775808) % 18446744073709551616 - 9223372036854775808

/-- Conversion of an integer value to `uint32_t`. -/
def toU32 (x : Int) : Nat := (x % 4294967296).toNat

/-- Conversion of an integer value to `size_t` (64-bit unsigned). -/
def toSizeT (x : Int) : Nat := (x % 18446744073709551616).toNat

/-- Signed 64-bit addition. -/
def add64 (a b : Int) : Int := wrap64 (a + b)

/-- Signed 64-bit subtraction. -/
def sub64 (a b : Int) : Int := wrap64 (a - b)

/-- Signed 64-bit multiplication. -/
def mul64 (a b : Int) : Int := wrap64 (a * b)

/-- Signed 64-bit division, truncating toward zero as C does. -/
def div64 (a b : Int) : Int := wrap64 (Int.tdiv a b)

/-- Signed 64-bit remainder, with the sign of the dividend as C does. -/
def mod64 (a b : Int) : Int := wrap64 (Int.tmod a b)

/-! ## Byte order and memory images -/

/-- Host byte order. -/
inductive Endian where
  | little
  | big
deriving DecidableEq

/-- One octet of memory or of a datagram. -/
abbrev Byte := Fin 256

/-- The low octet of a natural number. -/
def byteOf (x : Nat) : Byte := ⟨x % 256, Nat.mod_lt x (by decide)⟩

/-- Reversal of the four octets of a 32-bit value. -/
def bswap32 (x : Nat) : Nat :=
  (x % 256) * 16777216 + (x / 256 % 256) * 65536 + (x / 65536 % 256) * 256 + x / 16777216 % 256

/-- The libc `htonl` on a host of the given byte order. -/
def htonl (e : Endian) (x : Nat) : Nat :=
  match e with
  | .big => x % 4294967296
  | .little => bswap32 x

/-- The libc `ntohl` on a host of the given byte order. -/
def ntohl (e : Endian) (x : Nat) : Nat :=
  match e with
  | .big => x % 4294967296
  | .little => bswap32 x

/-- Memory image (ascending addresses) of a `uint32_t` object holding `x`. -/
def storeU32 (e : Endian) (x : Nat) : List Byte :=
  match e with
  | .big => [byteOf (x / 16777216), byteOf (x / 65536), byteOf (x / 256), byteOf x]
  | .little => [byteOf x, byteOf (x / 256), byteOf (x / 65536), byteOf (x / 16777216)]

/-- Value of the `uint32_t` object whose memory image is `b0 b1 b2 b3` (ascending addresses). -/
def loadU32 (e : Endian) (b0 b1 b2 b3 : Byte) : Nat :=
  match e with
  | .big => b0.val * 16777216 + b1.val * 65536 + b2.val * 256 + b3.val
  | .little => b3.val * 16777216 + b2.val * 65536 + b1.val * 256 + b0.val

/-! ## Data model -/

/-- The `struct timespec` of the host: `time_t tv_sec; long tv_nsec`. -/
structure timespec where
  tv_sec : Int
  tv_nsec : Int
deriving DecidableEq

/-- The `struct timeval` returned by `gettimeofday`. -/
structure timeval where
  tv_sec : Int
  tv_usec : Int
deriving DecidableEq

/-- The `struct ntptime`: two `uint32_t` fields. -/
structure ntptime where
  coarse : Nat
  fine : Nat
deriving DecidableEq

/-- The `aw_ntp_packet_t`: twelve `uint32_t` fields, 48 bytes. -/
structure aw_ntp_packet_t where
  head : Nat
  rootDelay : Nat
  rootDispersion : Nat
  refId : Nat
  refTm_s : Nat
  refTm_f : Nat
  origTm_s : Nat
  origTm_f : Nat
  rxTm_s : Nat
  rxTm_f : Nat
  txTm_s : Nat
  txTm_f : Nat
deriving DecidableEq

/-- The `sizeof(aw_ntp_packet_t)`. -/
def sizeof_packet : Nat := 48

/-- Memory image of a packet object: its fields in declaration order. -/
def packet_bytes (e : Endian) (p : aw_ntp_packet_t) : List Byte :=
  storeU32 e p.head ++ storeU32 e p.rootDelay ++ storeU32 e p.rootDispersion ++
  storeU32 e p.refId ++ storeU32 e p.refTm_s ++ storeU32 e p.refTm_f ++
  storeU32 e p.origTm_s ++ storeU32 e p.origTm_f ++ storeU32 e p.rxTm_s ++
  storeU32 e p.rxTm_f ++ storeU32 e p.txTm_s ++ storeU32 e p.txTm_f

/-- Field at byte offset `i` of a memory image. -/
def fieldAt (e : Endian) (m : List Byte) (i : Nat) : Nat :=
  loadU32 e (m.getD i 0) (m.getD (i + 1) 0) (m.getD (i + 2) 0) (m.getD (i + 3) 0)

/-- The packet object whose memory image is `m`. -/
def packet_of_bytes (e : Endian) (m : List Byte) : aw_ntp_packet_t :=
  { head := fieldAt e m 0
    rootDelay := fieldAt e m 4
    rootDispersion := fieldAt e m 8
    refId := fieldAt e m 12
    refTm_s := fieldAt e m 16
    refTm_f := fieldAt e m 20
    origTm_s := fieldAt e m 24
    origTm_f := fieldAt e m 28
    rxTm_s := fieldAt e m 32
    rxTm_f := fieldAt e m 36
    txTm_s := fieldAt e m 40
    txTm_f := fieldAt e m 44 }

/-! ## Constants and conversion macros (`ntp.c` lines 25-54) -/

/-- Leap indicator. -/
def LI : Nat := 0

/-- Version number of the protocol. -/
def VN : Nat := 3

/-- Client mode. -/
def MODE : Nat := 3

/-- Stratum of the request. -/
def STRATUM : Nat := 0

/-- Poll interval of the request. -/
def POLL : Nat := 4

/-- Precision of the request. -/
def PREC : Int := -6

/-- Seconds between 1900 and 1970; the literal `0x83aa7e80` has type `unsigned int`. -/
def JAN_1970 : Nat := 0x83aa7e80

/-- The macro `NTPFRAC`, applied to a `long`. -/
def NTPFRAC (x : Int) : Int :=
  add64 (mul64 4294 x) (wrap64 (mul64 1981 x >>> 11))

/-- The macro `USEC`, applied to a `uint32_t`. -/
def USEC (x : Nat) : Nat :=
  ((x >>> 12) + 4294967296
    - (759 * ((((x >>> 10) + 32768) % 4294967296) >>> 16)) % 4294967296) % 4294967296

/-! ## Converters (`ntp.c` lines 148-158) -/

/-- Local time to NTP timestamp. -/
def __timespec2ntptime (p_timespec : timespec) : ntptime :=
  { coarse := toU32 (add64 p_timespec.tv_sec (JAN_1970 : Int))
    fine := toU32 (NTPFRAC (div64 p_timespec.tv_nsec 1000)) }

/-- NTP timestamp to local time; both right-hand sides are `uint32_t` expressions. -/
def __ntptime2timespec (p_ntp_time : ntptime) : timespec :=
  { tv_sec := (((p_ntp_time.coarse + 4294967296 - JAN_1970) % 4294967296 : Nat) : Int)
    tv_nsec := (((USEC p_ntp_time.fine * 1000) % 4294967296 : Nat) : Int) }

/-- The adapter `ntp_sys_timespec` of `ntp.h`, applied to the reading of `gettimeofday`. -/
def ntp_sys_timespec (tv : timeval) : timespec :=
  { tv_sec := tv.tv_sec
    tv_nsec := mul64 tv.tv_usec 1000 }

/-! ## Packet codec (`ntp.c` lines 160-224) -/

/-- Host to network order, field by field. -/
def __send_ntp_packet_htonl (e : Endian) (p : aw_ntp_packet_t) : aw_ntp_packet_t :=
  { head := htonl e p.head
    rootDelay := htonl e p.rootDelay
    rootDispersion := htonl e p.rootDispersion
    refId := htonl e p.refId
    refTm_s := htonl e p.refTm_s
    refTm_f := htonl e p.refTm_f
    origTm_s := htonl e p.origTm_s
    origTm_f := htonl e p.origTm_f
    rxTm_s := htonl e p.rxTm_s
    rxTm_f := htonl e p.rxTm_f
    txTm_s := htonl e p.txTm_s
    txTm_f := htonl e p.txTm_f }

/-- Network to host order, field by field. -/
def __recv_ntp_packet_ntohl (e : Endian) (p : aw_ntp_packet_t) : aw_ntp_packet_t :=
  { head := ntohl e p.head
    rootDelay := ntohl e p.rootDelay
    rootDispersion := ntohl e p.rootDispersion
    refId := ntohl e p.refId
    refTm_s := ntohl e p.refTm_s
    refTm_f := ntohl e p.refTm_f
    origTm_s := ntohl e p.origTm_s
    origTm_f := ntohl e p.origTm_f
    rxTm_s := ntohl e p.rxTm_s
    rxTm_f := ntohl e p.rxTm_f
    txTm_s := ntohl e p.txTm_s
    txTm_f := ntohl e p.txTm_f }

/-- The header word assigned at `ntp.c` lines 208-209; `PREC & 0xff` acts on the
two's-complement representation of `-6`. -/
def request_head : Nat :=
  ((LI <<< 30) ||| (VN <<< 27) ||| (MODE <<< 24) ||| (STRATUM <<< 16) ||| (POLL <<< 8) |||
    (toU32 PREC &&& 0xff)) % 4294967296

/-- State of the packet in `__ntp_packet_make` just before `__send_ntp_packet_htonl` is called
(lines 206-219), given the reading `now` of `gettimeofday`. -/
def __ntp_packet_make_host (now : timeval) : aw_ntp_packet_t :=
  let ntp_time := __timespec2ntptime (ntp_sys_timespec now)
  { head := request_head
    rootDelay := 1 <<< 16
    rootDispersion := 0
    refId := 0
    refTm_s := 0
    refTm_f := 0
    origTm_s := 0
    origTm_f := 1 <<< 16
    rxTm_s := 0
    rxTm_f := 0
    txTm_s := ntp_time.coarse
    txTm_f := ntp_time.fine }

/-- The packet left in memory by `__ntp_packet_make`. -/
def __ntp_packet_make (e : Endian) (now : timeval) : aw_ntp_packet_t :=
  __send_ntp_packet_htonl e (__ntp_packet_make_host now)

/-! ## Result calculators (`ntp.c` lines 326-375) -/

/-- Absolute-time calculator: overwrites the caller's `timespec`. -/
def __utc_time_get (e : Endian) (p_packet : aw_ntp_packet_t) (_p_arg : timespec) : timespec :=
  let p := __recv_ntp_packet_ntohl e p_packet
  __ntptime2timespec { coarse := p.txTm_s, fine := p.txTm_f }

/-- Offset calculator: `t4` is the reading of `gettimeofday` taken on entry; the result
overwrites the caller's `int64_t`. -/
def __dff_time_get (e : Endian) (t4 : timeval) (p_packet : aw_ntp_packet_t) (_p_arg : Int) : Int :=
  let timespec_t4 := ntp_sys_timespec t4
  let p := __recv_ntp_packet_ntohl e p_packet
  let timespec_t1 := __ntptime2timespec { coarse := p.origTm_s, fine := p.origTm_f }
  let timespec_t2 := __ntptime2timespec { coarse := p.rxTm_s, fine := p.rxTm_f }
  let timespec_t3 := __ntptime2timespec { coarse := p.txTm_s, fine := p.txTm_f }
  div64
    (sub64
      (add64
        (add64
          (sub64
            (add64 (mul64 timespec_t2.tv_sec 1000) (div64 timespec_t2.tv_nsec 1000000))
            (add64 (mul64 timespec_t1.tv_sec 1000) (div64 timespec_t1.tv_nsec 1000000)))
          (mul64 timespec_t3.tv_sec 1000))
        (div64 timespec_t3.tv_nsec 1000000))
      (add64 (mul64 timespec_t4.tv_sec 1000) (div64 timespec_t4.tv_nsec 1000000)))
    2

/-! ## Exchange (`ntp.c` lines 226-323) -/

/-- Calls made by the exchange, in program order. -/
inductive Event where
  | getaddrinfo
  | socket
  | connect
  | send (payload : List Byte)
  | select
  | recvfrom
  | calc
  | shutdown
deriving DecidableEq

/-- Results of the external primitives during one exchange. -/
structure Env where
  /-- Byte order of the host. -/
  endian : Endian
  /-- Return value of `getaddrinfo`. -/
  getaddrinfo_ret : Int
  /-- Return value of `socket`. -/
  socket_ret : Int
  /-- Return value of `connect`. -/
  connect_ret : Int
  /-- Reading of `gettimeofday` inside `__ntp_packet_make`. -/
  clock_make : timeval
  /-- Return value of `send`; the code discards it. -/
  send_ret : Int
  /-- Return value of `select`. -/
  select_ret : Int
  /-- Whether `FD_ISSET(sockfd, &fds)` is non-zero after `select`. -/
  fd_isset : Bool
  /-- Result of `recvfrom`: `none` when it returns -1 and leaves the buffer alone, `some d` when
  the datagram `d` arrived (at most `sizeof(packet)` bytes of it are stored). -/
  recvfrom_ret : Option (List Byte)
  /-- Reading of `gettimeofday` inside `__dff_time_get`. -/
  clock_calc : timeval

/-- Result of a call: return value, the object behind the output pointer, and the calls made. -/
structure Outcome (α : Type) where
  ret : Int
  arg : α
  trace : List Event

/-- The `int` that `recvfrom` returns. -/
def recv_len (r : Option (List Byte)) : Int :=
  match r with
  | none => -1
  | some d => ((min d.length sizeof_packet : Nat) : Int)

/-- The packet object after `recvfrom` stored its bytes at the start of the buffer. -/
def recv_packet (e : Endian) (packet : aw_ntp_packet_t) (r : Option (List Byte)) :
    aw_ntp_packet_t :=
  match r with
  | none => packet
  | some d =>
    packet_of_bytes e
      (d.take sizeof_packet ++ (packet_bytes e packet).drop (min d.length sizeof_packet))

/-- One exchange, parameterised by the calculator; `recv_len >= sizeof(packet)` compares an
`int` with a `size_t`, so `recv_len` is converted to `size_t` first. -/
def __ntp_time_get {α : Type} (env : Env) (ntp_tm_calc : aw_ntp_packet_t → α → α) (p_arg : α) :
    Outcome α :=
  if env.getaddrinfo_ret ≠ 0 then
    ⟨-1, p_arg, [.getaddrinfo]⟩
  else if env.socket_ret < 0 then
    ⟨-1, p_arg, [.getaddrinfo, .socket]⟩
  else if env.connect_ret ≠ 0 then
    ⟨-1, p_arg, [.getaddrinfo, .socket, .connect, .shutdown]⟩
  else
    let packet := __ntp_packet_make env.endian env.clock_make
    let sent : List Byte := (packet_bytes env.endian packet).take sizeof_packet
    if 0 < env.select_ret ∧ env.fd_isset = true then
      if sizeof_packet ≤ toSizeT (recv_len env.recvfrom_ret) then
        ⟨0, ntp_tm_calc (recv_packet env.endian packet env.recvfrom_ret) p_arg,
          [.getaddrinfo, .socket, .connect, .send sent, .select, .recvfrom, .calc, .shutdown]⟩
      else
        ⟨-1, p_arg, [.getaddrinfo, .socket, .connect, .send sent, .select, .recvfrom, .shutdown]⟩
    else
      ⟨-1, p_arg, [.getaddrinfo, .socket, .connect, .send sent, .select, .shutdown]⟩

/-- The public `ntp_time_get`; `none` stands for a NULL pointer. -/
def ntp_time_get (env : Env) (p_server_addr : Option String) (p_timespec : Option timespec) :
    Outcome (Option timespec) :=
  match p_server_addr, p_timespec with
  | some _, some ts =>
    let o := __ntp_time_get env (__utc_time_get env.endian) ts
    ⟨o.ret, some o.arg, o.trace⟩
  | _, _ => ⟨-1, p_timespec, []⟩

/-- The public `ntp_time_diff_get`; `none` stands for a NULL pointer. -/
def ntp_time_diff_get (env : Env) (p_server_addr : Option String) (p_tm_diff_ms : Option Int) :
    Outcome (Option Int) :=
  match p_server_addr, p_tm_diff_ms with
  | some _, some d =>
    let o := __ntp_time_get env (__dff_time_get env.endian env.clock_calc) d
    ⟨o.ret, some o.arg, o.trace⟩
  | _, _ => ⟨-1, p_tm_diff_ms, []⟩

/-! ## Offset application (`ntp.c` lines 397-419) -/

/-- Apply a signed millisecond correction to a local time. -/
def timespec_correct (p_timespec : timespec) (error_ms : Int) : timespec :=
  if 0 ≤ error_ms then
    let sec := add64 p_timespec.tv_sec (div64 error_ms 1000)
    let nsec := add64 p_timespec.tv_nsec (mul64 (mod64 error_ms 1000) 1000000)
    if 1000000000 ≤ nsec then
      { tv_sec := add64 sec 1, tv_nsec := sub64 nsec 1000000000 }
    else
      { tv_sec := sec, tv_nsec := nsec }
  else
    let error_ms := sub64 0 error_ms
    let sec := sub64 p_timespec.tv_sec (div64 error_ms 1000)
    if p_timespec.tv_nsec < mul64 (mod64 error_ms 1000) 1000000 then
      { tv_sec := sub64 sec 1
        tv_nsec := sub64 (add64 p_timespec.tv_nsec 1000000000)
          (mul64 (mod64 error_ms 1000) 1000000) }
    else
      { tv_sec := sec
        tv_nsec := sub64 p_timespec.tv_nsec (mul64 (mod64 error_ms 1000) 1000000) }

/-! ## Specification-side definitions -/

/-- Millisecond value of a local time in the words of the specification:
`seconds*1000 + nanoseconds/1,000,000`, the quotient truncated. -/
def spec_ms (t : timespec) : Int := t.tv_sec * 1000 + Int.tdiv t.tv_nsec 1000000

/-- The four octets of a 32-bit value, most significant first. -/
def be_bytes (x : Nat) : List Byte :=
  [byteOf (x / 16777216), byteOf (x / 65536), byteOf (x / 256), byteOf x]

/-- The 32-bit value read most-significant octet first at offset `i` of a datagram. -/
def be32 (d : List Byte) (i : Nat) : Nat :=
  (d.getD i 0).val * 16777216 + (d.getD (i + 1) 0).val * 65536 + (d.getD (i + 2) 0).val * 256 +
    (d.getD (i + 3) 0).val

/-- Wire format of the specification: the twelve fields in declaration order, each as four
octets most significant first. -/
def wire_bytes (p : aw_ntp_packet_t) : List Byte :=
  be_bytes p.head ++ be_bytes p.rootDelay ++ be_bytes p.rootDispersion ++ be_bytes p.refId ++
  be_bytes p.refTm_s ++ be_bytes p.refTm_f ++ be_bytes p.origTm_s ++ be_bytes p.origTm_f ++
  be_bytes p.rxTm_s ++ be_bytes p.rxTm_f ++ be_bytes p.txTm_s ++ be_bytes p.txTm_f

/-! ## Concrete scenarios -/

/-- A 48-byte reply whose transmit timestamp is 2024-01-01T00:00:00 (coarse 3913056000 =
0xE93C7F00, fine 0); every other octet is zero. -/
def reply_2024 : List Byte :=
  List.replicate 40 0 ++ [0xE9, 0x3C, 0x7F, 0x00] ++ [0, 0, 0, 0]

/-- A little-endian host on which every primitive succeeds and `reply_2024` arrives. -/
def env_2024 : Env :=
  { endian := .little
    getaddrinfo_ret := 0
    socket_ret := 3
    connect_ret := 0
    clock_make := ⟨1704067199, 900000⟩
    send_ret := 48
    select_ret := 1
    fd_isset := true
    recvfrom_ret := some reply_2024
    clock_calc := ⟨1704067200, 100000⟩ }

/-- The same host when only 47 bytes of the reply arrive. -/
def env_short : Env := { env_2024 with recvfrom_ret := some (reply_2024.take 47) }

/-- The same host when `select` reports data but `recvfrom` then returns -1. -/
def env_recv_error : Env := { env_2024 with recvfrom_ret := none }

/-- The same host when `select` returns 0: nothing arrived within the timeout. -/
def env_timeout : Env := { env_2024 with select_ret := 0, fd_isset := false, recvfrom_ret := none }

/-- A reply on a big-endian host: originate 100.0 s, receive 100.1 s, transmit 100.15 s after
the 1970 epoch (fractions 0, 0x1999999A, 0x26666667). -/
def packet_offset_demo : aw_ntp_packet_t :=
  { head := 0x1C010300
    rootDelay := 0
    rootDispersion := 0
    refId := 0
    refTm_s := 0
    refTm_f := 0
    origTm_s := 2208988900
    origTm_f := 0
    rxTm_s := 2208988900
    rxTm_f := 0x1999999A
    txTm_s := 2208988900
    txTm_f := 0x26666667 }

/-- A reply on a big-endian host realising the specification's offset scenario: originate
100.0 s, receive 100.1 s and transmit 100.15 s after the 1970 epoch, with fractions that
`USEC` decodes to exactly 0, 100000 and 150000 microseconds. -/
def packet_symmetric_demo : aw_ntp_packet_t :=
  { head := 0x1C010300
    rootDelay := 0
    rootDispersion := 0
    refId := 0
    refTm_s := 0
    refTm_f := 0
    origTm_s := 2208988900
    origTm_f := 0
    rxTm_s := 2208988900
    rxTm_f := 428253337
    txTm_s := 2208988900
    txTm_f := 645492070 }

/-! ## Auxiliary lemmas -/

theorem wrap64_of_range (x : Int) (h1 : -9223372036854775808 ≤ x)
    (h2 : x ≤ 9223372036854775807) : wrap64 x = x := by
  unfold wrap64
  omega

theorem tdiv_pos_cases (a b : Int) (hb : 0 < b) :
    Int.tdiv a b = if 0 ≤ a then a / b else -((-a) / b) := by
  split
  · rename_i h
    exact Int.tdiv_eq_ediv h (le_of_lt hb)
  · rename_i h
    have h1 : Int.tdiv a b = -(Int.tdiv (-a) b) := by
      rw [Int.neg_tdiv, neg_neg]
    rw [h1, Int.tdiv_eq_ediv (by omega) (le_of_lt hb)]

theorem tmod_pos_cases (a b : Int) (hb : 0 < b) :
    Int.tmod a b = if 0 ≤ a then a % b else -((-a) % b) := by
  rw [Int.tmod_def, tdiv_pos_cases a b hb]
  split
  · rw [Int.emod_def]
  · rw [Int.emod_def]
    ring

theorem ntptime2timespec_sec_range (t : ntptime) :
    0 ≤ (__ntptime2timespec t).tv_sec ∧ (__ntptime2timespec t).tv_sec < 4294967296 := by
  simp only [__ntptime2timespec]
  omega

theorem ntptime2timespec_nsec_range (t : ntptime) :
    0 ≤ (__ntptime2timespec t).tv_nsec ∧ (__ntptime2timespec t).tv_nsec < 4294967296 := by
  simp only [__ntptime2timespec]
  omega

theorem dff_expression (s1 n1 s2 n2 s3 n3 s4 u4 : Int)
    (h1 : 0 ≤ s1 ∧ s1 < 4294967296) (k1 : 0 ≤ n1 ∧ n1 < 4294967296)
    (h2 : 0 ≤ s2 ∧ s2 < 4294967296) (k2 : 0 ≤ n2 ∧ n2 < 4294967296)
    (h3 : 0 ≤ s3 ∧ s3 < 4294967296) (k3 : 0 ≤ n3 ∧ n3 < 4294967296)
    (h4 : -9000000000000000 ≤ s4 ∧ s4 ≤ 9000000000000000)
    (k4 : 0 ≤ u4 ∧ u4 ≤ 999999) :
    div64
      (sub64
        (add64
          (add64
            (sub64
              (add64 (mul64 s2 1000) (div64 n2 1000000))
              (add64 (mul64 s1 1000) (div64 n1 1000000)))
            (mul64 s3 1000))
          (div64 n3 1000000))
        (add64 (mul64 s4 1000) (div64 (mul64 u4 1000) 1000000)))
      2
    = Int.tdiv
        ((s2 * 1000 + Int.tdiv n2 1000000 - (s1 * 1000 + Int.tdiv n1 1000000))
          + (s3 * 1000 + Int.tdiv n3 1000000 - (s4 * 1000 + Int.tdiv (mul64 u4 1000) 1000000)))
        2 := by
  have e4 : mul64 u4 1000 = u4 * 1000 := wrap64_of_range _ (by omega) (by omega)
  rw [e4]
  rw [Int.tdiv_eq_ediv k1.1 (by norm_num), Int.tdiv_eq_ediv k2.1 (by norm_num),
    Int.tdiv_eq_ediv k3.1 (by norm_num),
    Int.tdiv_eq_ediv (show (0 : Int) ≤ u4 * 1000 by omega) (by norm_num)]
  simp only [div64, mul64, add64, sub64]
  rw [Int.tdiv_eq_ediv k1.1 (by norm_num), Int.tdiv_eq_ediv k2.1 (by norm_num),
    Int.tdiv_eq_ediv k3.1 (by norm_num),
    Int.tdiv_eq_ediv (show (0 : Int) ≤ u4 * 1000 by omega) (by norm_num)]
  rw [wrap64_of_range (s2 * 1000) (by omega) (by omega),
    wrap64_of_range (s1 * 1000) (by omega) (by omega),
    wrap64_of_range (s3 * 1000) (by omega) (by omega),
    wrap64_of_range (s4 * 1000) (by omega) (by omega),
    wrap64_of_range (n1 / 1000000) (by omega) (by omega),
    wrap64_of_range (n2 / 1000000) (by omega) (by omega),
    wrap64_of_range (n3 / 1000000) (by omega) (by omega),
    wrap64_of_range (u4 * 1000 / 1000000) (by omega) (by omega)]
  rw [wrap64_of_range (s2 * 1000 + n2 / 1000000) (by omega) (by omega),
    wrap64_of_range (s1 * 1000 + n1 / 1000000) (by omega) (by omega),
    wrap64_of_range (s4 * 1000 + u4 * 1000 / 1000000) (by omega) (by omega)]
  rw [wrap64_of_range (s2 * 1000 + n2 / 1000000 - (s1 * 1000 + n1 / 1000000))
    (by omega) (by omega)]
  rw [wrap64_of_range (s2 * 1000 + n2 / 1000000 - (s1 * 1000 + n1 / 1000000) + s3 * 1000)
    (by omega) (by omega)]
  rw [wrap64_of_range
    (s2 * 1000 + n2 / 1000000 - (s1 * 1000 + n1 / 1000000) + s3 * 1000 + n3 / 1000000)
    (by omega) (by omega)]
  rw [wrap64_of_range
    (s2 * 1000 + n2 / 1000000 - (s1 * 1000 + n1 / 1000000) + s3 * 1000 + n3 / 1000000
      - (s4 * 1000 + u4 * 1000 / 1000000))
    (by omega) (by omega)]
  have hx : s2 * 1000 + n2 / 1000000 - (s1 * 1000 + n1 / 1000000) + s3 * 1000 + n3 / 1000000
      - (s4 * 1000 + u4 * 1000 / 1000000)
      = s2 * 1000 + n2 / 1000000 - (s1 * 1000 + n1 / 1000000)
        + (s3 * 1000 + n3 / 1000000 - (s4 * 1000 + u4 * 1000 / 1000000)) := by ring
  rw [hx]
  generalize hX : s2 * 1000 + n2 / 1000000 - (s1 * 1000 + n1 / 1000000)
        + (s3 * 1000 + n3 / 1000000 - (s4 * 1000 + u4 * 1000 / 1000000)) = X
  have hX1 : -9100000000000000000 ≤ X := by omega
  have hX2 : X ≤ 9100000000000000000 := by omega
  apply wrap64_of_range
  · rw [tdiv_pos_cases X 2 (by norm_num)]
    split <;> omega
  · rw [tdiv_pos_cases X 2 (by norm_num)]
    split <;> omega

theorem timespec_correct_nonneg (s n d : Int) (hn : 0 ≤ n ∧ n < 1000000000)
    (hd : 0 ≤ d ∧ d ≤ 9223372036854775807) :
    timespec_correct ⟨s, n⟩ d =
      if 1000000000 ≤ n + d % 1000 * 1000000 then
        ⟨wrap64 (wrap64 (s + d / 1000) + 1), n + d % 1000 * 1000000 - 1000000000⟩
      else ⟨wrap64 (s + d / 1000), n + d % 1000 * 1000000⟩ := by
  have hq : Int.tdiv d 1000 = d / 1000 := Int.tdiv_eq_ediv hd.1 (by norm_num)
  have hr : Int.tmod d 1000 = d % 1000 := Int.tmod_eq_emod hd.1 (by norm_num)
  have e1 : div64 d 1000 = d / 1000 := by
    rw [div64, hq]; exact wrap64_of_range _ (by omega) (by omega)
  have e2 : mod64 d 1000 = d % 1000 := by
    rw [mod64, hr]; exact wrap64_of_range _ (by omega) (by omega)
  have e3 : mul64 (d % 1000) 1000000 = d % 1000 * 1000000 :=
    wrap64_of_range _ (by omega) (by omega)
  have e4 : add64 n (d % 1000 * 1000000) = n + d % 1000 * 1000000 :=
    wrap64_of_range _ (by omega) (by omega)
  have e5 : sub64 (n + d % 1000 * 1000000) 1000000000 = n + d % 1000 * 1000000 - 1000000000 :=
    wrap64_of_range _ (by omega) (by omega)
  simp only [timespec_correct, if_pos hd.1, e1, e2, e3, e4, e5]
  rfl

theorem timespec_correct_neg (s n d : Int) (hn : 0 ≤ n ∧ n < 1000000000)
    (hd : -9223372036854775808 < d ∧ d < 0) :
    timespec_correct ⟨s, n⟩ d =
      if n < (-d) % 1000 * 1000000 then
        ⟨wrap64 (wrap64 (s - (-d) / 1000) - 1), n + 1000000000 - (-d) % 1000 * 1000000⟩
      else ⟨wrap64 (s - (-d) / 1000), n - (-d) % 1000 * 1000000⟩ := by
  have e0 : sub64 0 d = -d := by
    rw [sub64, zero_sub]; exact wrap64_of_range _ (by omega) (by omega)
  have hq : Int.tdiv (-d) 1000 = (-d) / 1000 := Int.tdiv_eq_ediv (by omega) (by norm_num)
  have hr : Int.tmod (-d) 1000 = (-d) % 1000 := Int.tmod_eq_emod (by omega) (by norm_num)
  have e1 : div64 (-d) 1000 = (-d) / 1000 := by
    rw [div64, hq]; exact wrap64_of_range _ (by omega) (by omega)
  have e2 : mod64 (-d) 1000 = (-d) % 1000 := by
    rw [mod64, hr]; exact wrap64_of_range _ (by omega) (by omega)
  have e3 : mul64 ((-d) % 1000) 1000000 = (-d) % 1000 * 1000000 :=
    wrap64_of_range _ (by omega) (by omega)
  have e4 : add64 n 1000000000 = n + 1000000000 :=
    wrap64_of_range _ (by omega) (by omega)
  have e5 : sub64 (n + 1000000000) ((-d) % 1000 * 1000000)
      = n + 1000000000 - (-d) % 1000 * 1000000 :=
    wrap64_of_range _ (by omega) (by omega)
  have e6 : sub64 n ((-d) % 1000 * 1000000) = n - (-d) % 1000 * 1000000 :=
    wrap64_of_range _ (by omega) (by omega)
  have hneg : ¬ (0 ≤ d) := by omega
  simp only [timespec_correct, if_neg hneg, e0, e1, e2, e3, e4, e5, e6]
  rfl

/-! ## Converter round trip -/

/-- C1 (evaluation at the failing input): for every seconds value, converting the local time
with 7812 microseconds to an NTP timestamp and back yields 8191000 nanoseconds, which is
379000 ns away from the 7812000 ns that went in. -/
theorem roundtrip_at_7812_usec (s : Int) :
    (__timespec2ntptime ⟨s, 7812 * 1000⟩).fine = 33552284 ∧
    (__ntptime2timespec (__timespec2ntptime ⟨s, 7812 * 1000⟩)).tv_nsec = 8191000 ∧
    (__ntptime2timespec (__timespec2ntptime ⟨s, 7812 * 1000⟩)).tv_nsec - 7812 * 1000 = 379000 := by
  simp only [__timespec2ntptime, __ntptime2timespec]
  decide

/-! ## Offset calculator -/

/-- C2: for every reply packet and every arrival reading of the wall clock (microseconds in
[0, 999999], seconds within nine quadrillion of the epoch so that the millisecond value fits in
64 bits), the offset calculator stores ((ms(T2) - ms(T1)) + (ms(T3) - ms(T4))) / 2 with the
division truncating toward zero, where T1, T2, T3 are the converted originate, receive and
transmit timestamps of the decoded reply and ms is seconds*1000 + nanoseconds/1000000. -/
theorem dff_time_get_formula (e : Endian) (t4 : timeval) (p_packet : aw_ntp_packet_t)
    (old : Int)
    (hs1 : -9000000000000000 ≤ t4.tv_sec) (hs2 : t4.tv_sec ≤ 9000000000000000)
    (hu1 : 0 ≤ t4.tv_usec) (hu2 : t4.tv_usec ≤ 999999) :
    __dff_time_get e t4 p_packet old =
      Int.tdiv
        ((spec_ms (__ntptime2timespec
              ⟨(__recv_ntp_packet_ntohl e p_packet).rxTm_s,
                (__recv_ntp_packet_ntohl e p_packet).rxTm_f⟩)
            - spec_ms (__ntptime2timespec
              ⟨(__recv_ntp_packet_ntohl e p_packet).origTm_s,
                (__recv_ntp_packet_ntohl e p_packet).origTm_f⟩))
          + (spec_ms (__ntptime2timespec
              ⟨(__recv_ntp_packet_ntohl e p_packet).txTm_s,
                (__recv_ntp_packet_ntohl e p_packet).txTm_f⟩)
            - spec_ms (ntp_sys_timespec t4)))
        2 := by
  simp only [__dff_time_get, spec_ms, ntp_sys_timespec]
  exact dff_expression _ _ _ _ _ _ _ _
    (ntptime2timespec_sec_range _) (ntptime2timespec_nsec_range _)
    (ntptime2timespec_sec_range _) (ntptime2timespec_nsec_range _)
    (ntptime2timespec_sec_range _) (ntptime2timespec_nsec_range _)
    ⟨hs1, hs2⟩ ⟨hu1, hu2⟩

/-- Witness for `dff_time_get_formula`: a big-endian host, arrival reading 100.25 s, and the
reply `packet_offset_demo`. -/
theorem dff_time_get_formula_witness :
    (-9000000000000000 ≤ (100 : Int) ∧ (100 : Int) ≤ 9000000000000000 ∧
      (0 : Int) ≤ 250000 ∧ (250000 : Int) ≤ 999999) ∧
    __dff_time_get .big ⟨100, 250000⟩ packet_offset_demo 7 =
      Int.tdiv
        ((spec_ms (__ntptime2timespec
              ⟨(__recv_ntp_packet_ntohl .big packet_offset_demo).rxTm_s,
                (__recv_ntp_packet_ntohl .big packet_offset_demo).rxTm_f⟩)
            - spec_ms (__ntptime2timespec
              ⟨(__recv_ntp_packet_ntohl .big packet_offset_demo).origTm_s,
                (__recv_ntp_packet_ntohl .big packet_offset_demo).origTm_f⟩))
          + (spec_ms (__ntptime2timespec
              ⟨(__recv_ntp_packet_ntohl .big packet_offset_demo).txTm_s,
                (__recv_ntp_packet_ntohl .big packet_offset_demo).txTm_f⟩)
            - spec_ms (ntp_sys_timespec ⟨100, 250000⟩)))
        2 :=
  ⟨by decide,
    dff_time_get_formula .big ⟨100, 250000⟩ packet_offset_demo 7
      (by decide) (by decide) (by decide) (by decide)⟩

/-! ## Offset application -/

/-- C3: for every local time with an `int64_t` seconds value and nanoseconds in [0, 1e9), and
every millisecond offset d whose negation is representable, applying d and then -d returns the
original local time in both seconds and nanoseconds. -/
theorem timespec_correct_roundtrip (t : timespec) (d : Int)
    (hs : -9223372036854775808 ≤ t.tv_sec ∧ t.tv_sec ≤ 9223372036854775807)
    (hn : 0 ≤ t.tv_nsec ∧ t.tv_nsec < 1000000000)
    (hd : -9223372036854775808 < d ∧ d ≤ 9223372036854775807) :
    timespec_correct (timespec_correct t d) (-d) = t := by
  obtain ⟨s, n⟩ := t
  simp only at hs hn
  rcases lt_trichotomy d 0 with h | h | h
  · rw [timespec_correct_neg s n d hn ⟨hd.1, h⟩]
    split
    · rw [timespec_correct_nonneg _ _ (-d) (by omega) (by omega)]
      rw [if_pos (by omega)]
      simp only [wrap64, timespec.mk.injEq]
      omega
    · rw [timespec_correct_nonneg _ _ (-d) (by omega) (by omega)]
      rw [if_neg (by omega)]
      simp only [wrap64, timespec.mk.injEq]
      omega
  · subst h
    have key : timespec_correct ⟨s, n⟩ 0 = ⟨s, n⟩ := by
      rw [timespec_correct_nonneg s n 0 hn (by omega), if_neg (by omega)]
      simp only [wrap64, timespec.mk.injEq]
      omega
    rw [neg_zero, key, key]
  · rw [timespec_correct_nonneg s n d hn ⟨le_of_lt h, hd.2⟩]
    split
    · rw [timespec_correct_neg _ _ (-d) (by omega) (by omega)]
      rw [neg_neg, if_pos (by omega)]
      simp only [wrap64, timespec.mk.injEq]
      omega
    · rw [timespec_correct_neg _ _ (-d) (by omega) (by omega)]
      rw [neg_neg, if_neg (by omega)]
      simp only [wrap64, timespec.mk.injEq]
      omega


/-- Witness for `timespec_correct_roundtrip`: t = 10.5 s and d = 700 ms give the intermediate
11.2 s, and applying -700 ms returns 10.5 s. -/
theorem timespec_correct_roundtrip_witness :
    timespec_correct ⟨10, 500000000⟩ 700 = ⟨11, 200000000⟩ ∧
    timespec_correct (timespec_correct ⟨10, 500000000⟩ 700) (-700) = ⟨10, 500000000⟩ :=
  ⟨by decide,
    timespec_correct_roundtrip ⟨10, 500000000⟩ 700 (by decide) (by decide) (by decide)⟩

/-- C4: for every local time with nanoseconds in [0, 1e9) and every millisecond offset d of
either sign, when the seconds stay within the `int64_t` range, the corrected time r satisfies
r.seconds*10^9 + r.nanoseconds = t.seconds*10^9 + t.nanoseconds + d*10^6; with d = 0 the
result is t itself. -/
theorem timespec_correct_exact (t : timespec) (d : Int)
    (hn : 0 ≤ t.tv_nsec ∧ t.tv_nsec < 1000000000)
    (hd : -9223372036854775808 < d ∧ d ≤ 9223372036854775807)
    (hlo : -9223372036854775808 ≤ t.tv_sec + Int.tdiv d 1000 - 1)
    (hhi : t.tv_sec + Int.tdiv d 1000 + 1 ≤ 9223372036854775807) :
    (timespec_correct t d).tv_sec * 1000000000 + (timespec_correct t d).tv_nsec
        = t.tv_sec * 1000000000 + t.tv_nsec + d * 1000000 ∧
      (d = 0 → timespec_correct t d = t) := by
  obtain ⟨s, n⟩ := t
  simp only at hn hlo hhi
  rw [tdiv_pos_cases d 1000 (by norm_num)] at hlo hhi
  by_cases h : 0 ≤ d
  · rw [if_pos h] at hlo hhi
    rw [timespec_correct_nonneg s n d hn ⟨h, hd.2⟩]
    have w1 : wrap64 (s + d / 1000) = s + d / 1000 := wrap64_of_range _ (by omega) (by omega)
    have w2 : wrap64 (s + d / 1000 + 1) = s + d / 1000 + 1 :=
      wrap64_of_range _ (by omega) (by omega)
    rw [w1, w2]
    split
    · refine ⟨?_, ?_⟩
      · simp only; omega
      · intro h0; subst h0; omega
    · refine ⟨?_, ?_⟩
      · simp only; omega
      · intro h0; subst h0; simp
  · rw [if_neg h] at hlo hhi
    rw [timespec_correct_neg s n d hn ⟨hd.1, by omega⟩]
    have w1 : wrap64 (s - -d / 1000) = s - -d / 1000 := wrap64_of_range _ (by omega) (by omega)
    have w2 : wrap64 (s - -d / 1000 - 1) = s - -d / 1000 - 1 :=
      wrap64_of_range _ (by omega) (by omega)
    rw [w1, w2]
    split
    · refine ⟨?_, ?_⟩
      · simp only; omega
      · intro h0; omega
    · refine ⟨?_, ?_⟩
      · simp only; omega
      · intro h0; omega

/-- Witness for `timespec_correct_exact`: t = 10.2 s and d = -700 ms, a borrow. -/
theorem timespec_correct_exact_witness :
    timespec_correct ⟨10, 200000000⟩ (-700) = ⟨9, 500000000⟩ ∧
    (timespec_correct ⟨10, 200000000⟩ (-700)).tv_sec * 1000000000
        + (timespec_correct ⟨10, 200000000⟩ (-700)).tv_nsec
      = 10 * 1000000000 + 200000000 + (-700) * 1000000 :=
  ⟨by decide,
    (timespec_correct_exact ⟨10, 200000000⟩ (-700) (by decide) (by decide) (by decide)
      (by decide)).1⟩

/-! ## Byte order lemmas -/

theorem bswap32_bytes (b0 b1 b2 b3 : Nat) (h0 : b0 < 256) (h1 : b1 < 256) (h2 : b2 < 256)
    (h3 : b3 < 256) :
    (b0 * 16777216 + b1 * 65536 + b2 * 256 + b3) % 256 = b3 ∧
    (b0 * 16777216 + b1 * 65536 + b2 * 256 + b3) / 256 % 256 = b2 ∧
    (b0 * 16777216 + b1 * 65536 + b2 * 256 + b3) / 65536 % 256 = b1 ∧
    (b0 * 16777216 + b1 * 65536 + b2 * 256 + b3) / 16777216 % 256 = b0 := by
  refine ⟨?_, ?_, ?_, ?_⟩ <;> omega

theorem storeU32_htonl (e : Endian) (x : Nat) : storeU32 e (htonl e x) = be_bytes x := by
  cases e
  · have h := bswap32_bytes (x % 256) (x / 256 % 256) (x / 65536 % 256) (x / 16777216 % 256)
      (Nat.mod_lt _ (by decide)) (Nat.mod_lt _ (by decide)) (Nat.mod_lt _ (by decide))
      (Nat.mod_lt _ (by decide))
    simp only [storeU32, htonl, bswap32, be_bytes, byteOf, List.cons.injEq, Fin.mk.injEq,
      and_true]
    refine ⟨?_, ?_, ?_, ?_⟩
    · rw [h.1]
    · rw [h.2.1]
    · rw [h.2.2.1]
    · rw [h.2.2.2]
  · simp only [storeU32, htonl, be_bytes, byteOf, List.cons.injEq, Fin.mk.injEq, and_true]
    refine ⟨?_, ?_, ?_, ?_⟩ <;> omega

theorem ntohl_loadU32 (e : Endian) (b0 b1 b2 b3 : Byte) :
    ntohl e (loadU32 e b0 b1 b2 b3)
      = b0.val * 16777216 + b1.val * 65536 + b2.val * 256 + b3.val := by
  cases e
  · simp only [ntohl, loadU32, bswap32]
    omega
  · simp only [ntohl, loadU32]
    omega

theorem ntohl_fieldAt (e : Endian) (m : List Byte) (i : Nat) :
    ntohl e (fieldAt e m i) = be32 m i := by
  simp only [fieldAt, be32, ntohl_loadU32]

theorem packet_bytes_make (e : Endian) (now : timeval) :
    packet_bytes e (__ntp_packet_make e now) = wire_bytes (__ntp_packet_make_host now) := by
  simp only [packet_bytes, __ntp_packet_make, __send_ntp_packet_htonl, storeU32_htonl, wire_bytes]

theorem wire_bytes_length (p : aw_ntp_packet_t) : (wire_bytes p).length = 48 := by
  simp [wire_bytes, be_bytes]

theorem recv_packet_full (e : Endian) (packet : aw_ntp_packet_t) (data : List Byte)
    (h : data.length = 48) :
    recv_packet e packet (some data) = packet_of_bytes e data := by
  simp only [recv_packet, sizeof_packet, h, Nat.min_self]
  rw [List.take_of_length_le (by omega), List.drop_of_length_le, List.append_nil]
  cases e <;> simp [packet_bytes, storeU32]

/-! ## Exchange -/

/-- C5: when address resolution, socket creation and connect succeed, the wait reports data and
a 48-byte reply is received, `ntp_time_get` returns 0 and writes the conversion of the reply's
transmit timestamp, whose coarse and fine words are bytes 40-43 and 44-47 read most
significant byte first, on a host of either byte order. -/
theorem ntp_time_get_absolute (env : Env) (addr : String) (ts : timespec) (data : List Byte)
    (h1 : env.getaddrinfo_ret = 0) (h2 : 0 ≤ env.socket_ret) (h3 : env.connect_ret = 0)
    (h4 : 0 < env.select_ret) (h5 : env.fd_isset = true)
    (h6 : env.recvfrom_ret = some data) (h7 : data.length = 48) :
    (ntp_time_get env (some addr) (some ts)).ret = 0 ∧
    (ntp_time_get env (some addr) (some ts)).arg
      = some (__ntptime2timespec ⟨be32 data 40, be32 data 44⟩) := by
  have hlen : toSizeT (recv_len (some data)) = 48 := by
    simp only [recv_len, sizeof_packet, h7, Nat.min_self, toSizeT]
    decide
  simp only [ntp_time_get, __ntp_time_get, h1, h3, h4, h5, h6, hlen, sizeof_packet,
    recv_packet_full _ _ _ h7, __utc_time_get, __recv_ntp_packet_ntohl, packet_of_bytes,
    ntohl_fieldAt]
  have : ¬ (env.socket_ret < 0) := by omega
  simp [this]

/-- Witness for `ntp_time_get_absolute`: the reply `reply_2024`, whose transmit timestamp
encodes 2024-01-01T00:00:00, yields exactly 1704067200 s and 0 ns. -/
theorem ntp_time_get_absolute_witness :
    (ntp_time_get env_2024 (some "cn.pool.ntp.org") (some ⟨0, 0⟩)).ret = 0 ∧
    (ntp_time_get env_2024 (some "cn.pool.ntp.org") (some ⟨0, 0⟩)).arg
      = some ⟨1704067200, 0⟩ :=
  ⟨(ntp_time_get_absolute env_2024 "cn.pool.ntp.org" ⟨0, 0⟩ reply_2024 (by decide) (by decide)
      (by decide) (by decide) (by decide) (by decide) (by decide)).1,
    (ntp_time_get_absolute env_2024 "cn.pool.ntp.org" ⟨0, 0⟩ reply_2024 (by decide) (by decide)
      (by decide) (by decide) (by decide) (by decide) (by decide)).2.trans (by decide)⟩

/-- C6: once the wait reported data, a received byte count below 48 makes the exchange return
-1 without invoking the calculator and without touching the output, and a received byte count
of exactly 48 makes it invoke the calculator on the received packet and return 0. -/
theorem reply_length_check {α : Type} (env : Env) (ntp_tm_calc : aw_ntp_packet_t → α → α)
    (p_arg : α) (data : List Byte)
    (h1 : env.getaddrinfo_ret = 0) (h2 : 0 ≤ env.socket_ret) (h3 : env.connect_ret = 0)
    (h4 : 0 < env.select_ret) (h5 : env.fd_isset = true)
    (h6 : env.recvfrom_ret = some data) :
    (data.length < 48 →
      (__ntp_time_get env ntp_tm_calc p_arg).ret = -1 ∧
      Event.calc ∉ (__ntp_time_get env ntp_tm_calc p_arg).trace ∧
      (__ntp_time_get env ntp_tm_calc p_arg).arg = p_arg) ∧
    (data.length = 48 →
      (__ntp_time_get env ntp_tm_calc p_arg).ret = 0 ∧
      Event.calc ∈ (__ntp_time_get env ntp_tm_calc p_arg).trace ∧
      (__ntp_time_get env ntp_tm_calc p_arg).arg
        = ntp_tm_calc (packet_of_bytes env.endian data) p_arg) := by
  have hs : ¬ (env.socket_ret < 0) := by omega
  constructor
  · intro hlt
    have hlen : ¬ (48 ≤ toSizeT (recv_len (some data))) := by
      simp only [recv_len, sizeof_packet, toSizeT]
      omega
    simp [__ntp_time_get, h1, h3, h4, h5, h6, hs, hlen, sizeof_packet]
  · intro heq
    have hlen : toSizeT (recv_len (some data)) = 48 := by
      simp only [recv_len, sizeof_packet, heq, Nat.min_self, toSizeT]
      decide
    simp [__ntp_time_get, h1, h3, h4, h5, h6, hs, hlen, sizeof_packet,
      recv_packet_full _ _ _ heq]

/-- Witness for `reply_length_check`: 47 bytes fail, 48 bytes succeed. -/
theorem reply_length_check_witness :
    ((__ntp_time_get env_short (__utc_time_get env_short.endian) ⟨0, 0⟩).ret = -1 ∧
      Event.calc ∉ (__ntp_time_get env_short (__utc_time_get env_short.endian) ⟨0, 0⟩).trace ∧
      (__ntp_time_get env_short (__utc_time_get env_short.endian) ⟨0, 0⟩).arg = ⟨0, 0⟩) ∧
    ((__ntp_time_get env_2024 (__utc_time_get env_2024.endian) ⟨0, 0⟩).ret = 0 ∧
      Event.calc ∈ (__ntp_time_get env_2024 (__utc_time_get env_2024.endian) ⟨0, 0⟩).trace ∧
      (__ntp_time_get env_2024 (__utc_time_get env_2024.endian) ⟨0, 0⟩).arg
        = __utc_time_get env_2024.endian (packet_of_bytes env_2024.endian reply_2024) ⟨0, 0⟩) :=
  ⟨(reply_length_check env_short (__utc_time_get env_short.endian) ⟨0, 0⟩ (reply_2024.take 47)
      (by decide) (by decide) (by decide) (by decide) (by decide) (by decide)).1 (by decide),
    (reply_length_check env_2024 (__utc_time_get env_2024.endian) ⟨0, 0⟩ reply_2024
      (by decide) (by decide) (by decide) (by decide) (by decide) (by decide)).2 (by decide)⟩

/-- C7 (evaluation at the failing input): on a host where connect and send succeed, the wait
reports data and `recvfrom` then returns -1, the exchange returns 0, invokes the calculator
and overwrites the caller's output with the conversion of the request it has just sent. -/
theorem recvfrom_error_reaches_calculator :
    recv_len env_recv_error.recvfrom_ret = -1 ∧
    (ntp_time_get env_recv_error (some "cn.pool.ntp.org") (some ⟨0, 0⟩)).ret = 0 ∧
    Event.calc ∈ (ntp_time_get env_recv_error (some "cn.pool.ntp.org") (some ⟨0, 0⟩)).trace ∧
    (ntp_time_get env_recv_error (some "cn.pool.ntp.org") (some ⟨0, 0⟩)).arg
      = some ⟨1704067199, 899696000⟩ := by
  decide

/-- C8: whenever the bounded wait does not report data ready, `ntp_time_get` and
`ntp_time_diff_get` return -1, make no `recvfrom` call, do not invoke the calculator, and leave
the caller's output exactly as it was. -/
theorem timeout_fails_whole_call (env : Env) (p_server_addr : Option String)
    (p_timespec : Option timespec) (p_tm_diff_ms : Option Int)
    (h : ¬ (0 < env.select_ret ∧ env.fd_isset = true)) :
    ((ntp_time_get env p_server_addr p_timespec).ret = -1 ∧
      (ntp_time_get env p_server_addr p_timespec).arg = p_timespec ∧
      Event.recvfrom ∉ (ntp_time_get env p_server_addr p_timespec).trace ∧
      Event.calc ∉ (ntp_time_get env p_server_addr p_timespec).trace) ∧
    ((ntp_time_diff_get env p_server_addr p_tm_diff_ms).ret = -1 ∧
      (ntp_time_diff_get env p_server_addr p_tm_diff_ms).arg = p_tm_diff_ms ∧
      Event.recvfrom ∉ (ntp_time_diff_get env p_server_addr p_tm_diff_ms).trace ∧
      Event.calc ∉ (ntp_time_diff_get env p_server_addr p_tm_diff_ms).trace) := by
  constructor
  · cases p_server_addr <;> cases p_timespec <;>
      simp only [ntp_time_get, __ntp_time_get, if_neg h] <;> (try split_ifs) <;> simp
  · cases p_server_addr <;> cases p_tm_diff_ms <;>
      simp only [ntp_time_diff_get, __ntp_time_get, if_neg h] <;> (try split_ifs) <;> simp
/-- Witness for `timeout_fails_whole_call`: on `env_timeout` the wait is reached and reports
nothing, and the call fails with the output untouched. -/
theorem timeout_fails_whole_call_witness :
    Event.select ∈ (ntp_time_get env_timeout (some "cn.pool.ntp.org") (some ⟨5, 6⟩)).trace ∧
    (ntp_time_get env_timeout (some "cn.pool.ntp.org") (some ⟨5, 6⟩)).ret = -1 ∧
    (ntp_time_get env_timeout (some "cn.pool.ntp.org") (some ⟨5, 6⟩)).arg = some ⟨5, 6⟩ ∧
    (ntp_time_diff_get env_timeout (some "cn.pool.ntp.org") (some 7)).ret = -1 ∧
    (ntp_time_diff_get env_timeout (some "cn.pool.ntp.org") (some 7)).arg = some 7 :=
  ⟨by decide,
    (timeout_fails_whole_call env_timeout (some "cn.pool.ntp.org") (some ⟨5, 6⟩) (some 7)
      (by decide)).1.1,
    (timeout_fails_whole_call env_timeout (some "cn.pool.ntp.org") (some ⟨5, 6⟩) (some 7)
      (by decide)).1.2.1,
    (timeout_fails_whole_call env_timeout (some "cn.pool.ntp.org") (some ⟨5, 6⟩) (some 7)
      (by decide)).2.1,
    (timeout_fails_whole_call env_timeout (some "cn.pool.ntp.org") (some ⟨5, 6⟩) (some 7)
      (by decide)).2.2.1⟩

theorem mem_trace_send {α : Type} (env : Env) (ntp_tm_calc : aw_ntp_packet_t → α → α)
    (p_arg : α) (payload : List Byte)
    (h : Event.send payload ∈ (__ntp_time_get env ntp_tm_calc p_arg).trace) :
    payload = (packet_bytes env.endian (__ntp_packet_make env.endian env.clock_make)).take
      sizeof_packet := by
  simp only [__ntp_time_get] at h
  split_ifs at h <;> simp at h <;> exact h

/-- C9: for every clock reading and host byte order, a datagram sent by the exchange is the
twelve fields of the request in declaration order, each as four bytes most significant first;
it is 48 bytes long and starts with 0x1B, 0x00, 0x04, 0xFA. -/
theorem request_wire_encoding {α : Type} (env : Env) (ntp_tm_calc : aw_ntp_packet_t → α → α)
    (p_arg : α) (payload : List Byte)
    (h : Event.send payload ∈ (__ntp_time_get env ntp_tm_calc p_arg).trace) :
    payload = wire_bytes (__ntp_packet_make_host env.clock_make) ∧
    payload.length = 48 ∧
    payload.take 4 = [0x1B, 0x00, 0x04, 0xFA] := by
  have hp := mem_trace_send env ntp_tm_calc p_arg payload h
  rw [packet_bytes_make, sizeof_packet,
    List.take_of_length_le (le_of_eq (wire_bytes_length _))] at hp
  subst hp
  refine ⟨rfl, wire_bytes_length _, ?_⟩
  simp only [wire_bytes, __ntp_packet_make_host, be_bytes, List.cons_append, List.nil_append,
    List.take_succ_cons, List.take_zero]
  decide

/-- Witness for `request_wire_encoding`: the exchange of `env_2024` sends the request. -/
theorem request_wire_encoding_witness :
    Event.send (wire_bytes (__ntp_packet_make_host env_2024.clock_make)) ∈
      (ntp_time_get env_2024 (some "cn.pool.ntp.org") (some ⟨0, 0⟩)).trace ∧
    (wire_bytes (__ntp_packet_make_host env_2024.clock_make)).take 4 = [0x1B, 0x00, 0x04, 0xFA] :=
  ⟨by decide,
    (request_wire_encoding env_2024 (__utc_time_get env_2024.endian) ⟨0, 0⟩
      (wire_bytes (__ntp_packet_make_host env_2024.clock_make)) (by decide)).2.2⟩

/-- C10: the header word of the request before byte-order conversion equals
(0<<30)|(3<<27)|(3<<24)|(0<<16)|(4<<8)|0xFA; its top byte is li<<6|vn<<3|mode with leap
indicator 0, version 3 and mode 3, and its next three bytes are stratum 0, poll 4 and
precision 0xFA, the low byte of -6. -/
theorem request_header_fields (now : timeval) :
    (__ntp_packet_make_host now).head
      = ((0 <<< 30) ||| (3 <<< 27) ||| (3 <<< 24) ||| (0 <<< 16) ||| (4 <<< 8) ||| 0xFA) ∧
    (__ntp_packet_make_host now).head >>> 24 = ((0 <<< 6) ||| (3 <<< 3) ||| 3) ∧
    ((__ntp_packet_make_host now).head >>> 30) &&& 0x3 = 0 ∧
    ((__ntp_packet_make_host now).head >>> 27) &&& 0x7 = 3 ∧
    ((__ntp_packet_make_host now).head >>> 24) &&& 0x7 = 3 ∧
    ((__ntp_packet_make_host now).head >>> 16) &&& 0xff = 0 ∧
    ((__ntp_packet_make_host now).head >>> 8) &&& 0xff = 4 ∧
    (__ntp_packet_make_host now).head &&& 0xff = 0xFA ∧
    toU32 (-6) % 256 = 0xFA := by
  simp only [__ntp_packet_make_host]
  decide

/-! ## Request header and body -/

/-- C11 (counterexample): the header word built for the request is not 0x9B0004FA. -/
theorem request_head_not_9B0004FA : (__ntp_packet_make_host ⟨0, 0⟩).head ≠ 0x9B0004FA := by
  decide

/-- C11 (amended): for every clock reading, the header word built by `__ntp_packet_make`,
before network-order conversion, equals 0x1B0004FA. -/
theorem request_head_literal (now : timeval) : (__ntp_packet_make_host now).head = 0x1B0004FA := by
  simp only [__ntp_packet_make_host]
  decide

theorem bswap32_bswap32 (x : Nat) : bswap32 (bswap32 x) = x % 4294967296 := by
  have h := bswap32_bytes (x % 256) (x / 256 % 256) (x / 65536 % 256) (x / 16777216 % 256)
    (Nat.mod_lt _ (by decide)) (Nat.mod_lt _ (by decide)) (Nat.mod_lt _ (by decide))
    (Nat.mod_lt _ (by decide))
  have e : bswap32 (bswap32 x) = (bswap32 x % 256) * 16777216 + (bswap32 x / 256 % 256) * 65536
      + (bswap32 x / 65536 % 256) * 256 + bswap32 x / 16777216 % 256 := rfl
  have e0 : bswap32 x = x % 256 * 16777216 + x / 256 % 256 * 65536 + x / 65536 % 256 * 256
      + x / 16777216 % 256 := rfl
  rw [e, e0, h.1, h.2.1, h.2.2.1, h.2.2.2]
  clear h e e0
  omega

theorem ntohl_htonl (e : Endian) (x : Nat) : ntohl e (htonl e x) = x % 4294967296 := by
  cases e
  · exact bswap32_bswap32 x
  · simp only [ntohl, htonl]
    omega

theorem toU32_lt (x : Int) : toU32 x < 4294967296 := by
  unfold toU32
  omega

/-- C12: for every clock reading and host byte order, the request left in memory by
`__ntp_packet_make`, converted back to host order, has root delay 65536, originate fraction
65536, the transmit timestamp of the converted clock reading (coarse and fine), and zero in
root dispersion, reference id, reference timestamp, originate seconds and receive timestamp. -/
theorem request_body (e : Endian) (now : timeval) :
    (__recv_ntp_packet_ntohl e (__ntp_packet_make e now)).rootDelay = 65536 ∧
    (__recv_ntp_packet_ntohl e (__ntp_packet_make e now)).origTm_f = 65536 ∧
    (__recv_ntp_packet_ntohl e (__ntp_packet_make e now)).txTm_s
      = (__timespec2ntptime (ntp_sys_timespec now)).coarse ∧
    (__recv_ntp_packet_ntohl e (__ntp_packet_make e now)).txTm_f
      = (__timespec2ntptime (ntp_sys_timespec now)).fine ∧
    (__recv_ntp_packet_ntohl e (__ntp_packet_make e now)).rootDispersion = 0 ∧
    (__recv_ntp_packet_ntohl e (__ntp_packet_make e now)).refId = 0 ∧
    (__recv_ntp_packet_ntohl e (__ntp_packet_make e now)).refTm_s = 0 ∧
    (__recv_ntp_packet_ntohl e (__ntp_packet_make e now)).refTm_f = 0 ∧
    (__recv_ntp_packet_ntohl e (__ntp_packet_make e now)).origTm_s = 0 ∧
    (__recv_ntp_packet_ntohl e (__ntp_packet_make e now)).rxTm_s = 0 ∧
    (__recv_ntp_packet_ntohl e (__ntp_packet_make e now)).rxTm_f = 0 := by
  simp only [__recv_ntp_packet_ntohl, __ntp_packet_make, __send_ntp_packet_htonl,
    __ntp_packet_make_host, ntohl_htonl, __timespec2ntptime]
  refine ⟨by decide, by decide, ?_, ?_, by decide, by decide, by decide, by decide, by decide,
    by decide, by decide⟩
  · exact Nat.mod_eq_of_lt (toU32_lt _)
  · exact Nat.mod_eq_of_lt (toU32_lt _)

/-! ## Converter: seconds and fraction -/

theorem NTPFRAC_exact (u : Int) (h0 : 0 ≤ u) (h1 : u ≤ 999999) :
    NTPFRAC u = 4294 * u + 1981 * u / 2048 := by
  have e1 : mul64 4294 u = 4294 * u := wrap64_of_range _ (by omega) (by omega)
  have e2 : mul64 1981 u = 1981 * u := wrap64_of_range _ (by omega) (by omega)
  have e3 : (1981 * u) >>> (11 : Int) = 1981 * u / 2048 := by
    obtain ⟨a, rfl⟩ := Int.eq_ofNat_of_zero_le h0
    have hc : (1981 * (a : Int)) = ((1981 * a : Nat) : Int) := by push_cast; ring
    rw [hc, show (11 : Int) = ((11 : Nat) : Int) from rfl, Int.shiftRight_coe_nat,
      Nat.shiftRight_eq_div_pow]
    norm_num
  rw [NTPFRAC, e1, e2, e3, wrap64_of_range (1981 * u / 2048) (by omega) (by omega)]
  exact wrap64_of_range _ (by omega) (by omega)

/-- C13: for every local time with nanoseconds in [0, 1e9), i.e. every usec = ns/1000 in
[0, 999999], the fine value stored by `__timespec2ntptime` is exactly
4294*usec + ((1981*usec) >> 11) with nothing lost in the 32-bit store; it never exceeds the
exact scaling usec*2^32/10^6, falls short of it by less than 12 units of 2^-32 s (hence by
less than 12 microseconds' worth), and is below 2^32. -/
theorem ntpfrac_accuracy (s ns : Int) (h0 : 0 ≤ ns) (h1 : ns < 1000000000) :
    ((__timespec2ntptime ⟨s, ns⟩).fine : Int) = 4294 * (ns / 1000) + 1981 * (ns / 1000) / 2048 ∧
    ((__timespec2ntptime ⟨s, ns⟩).fine : Int) * 1000000 ≤ ns / 1000 * 4294967296 ∧
    ns / 1000 * 4294967296 - ((__timespec2ntptime ⟨s, ns⟩).fine : Int) * 1000000
      < 12 * 1000000 ∧
    ns / 1000 * 4294967296 - ((__timespec2ntptime ⟨s, ns⟩).fine : Int) * 1000000
      < 12 * 4294967296 ∧
    (__timespec2ntptime ⟨s, ns⟩).fine < 4294967296 := by
  have hd : div64 ns 1000 = ns / 1000 := by
    rw [div64, Int.tdiv_eq_ediv h0 (by norm_num)]
    exact wrap64_of_range _ (by omega) (by omega)
  have hf : ((__timespec2ntptime ⟨s, ns⟩).fine : Int)
      = 4294 * (ns / 1000) + 1981 * (ns / 1000) / 2048 := by
    simp only [__timespec2ntptime, hd, NTPFRAC_exact (ns / 1000) (by omega) (by omega), toU32]
    omega
  refine ⟨hf, ?_, ?_, ?_, toU32_lt _⟩
  · rw [hf]; omega
  · rw [hf]; omega
  · rw [hf]; omega

/-- Witness for `ntpfrac_accuracy`: usec = 999999, the largest value. -/
theorem ntpfrac_accuracy_witness :
    ((__timespec2ntptime ⟨0, 999999000⟩).fine : Int)
      = 4294 * (999999000 / 1000) + 1981 * (999999000 / 1000) / 2048 ∧
    (__timespec2ntptime ⟨0, 999999000⟩).fine = 4294962990 ∧
    (__timespec2ntptime ⟨0, 999999000⟩).fine < 4294967296 :=
  ⟨(ntpfrac_accuracy 0 999999000 (by decide) (by decide)).1, by decide,
    (ntpfrac_accuracy 0 999999000 (by decide) (by decide)).2.2.2.2⟩

/-- C14 (counterexample): for coarse = 0 the seconds field is 2085978496, not
0 - 2208988800. -/
theorem ntptime2timespec_sec_at_zero :
    (__ntptime2timespec ⟨0, 0⟩).tv_sec = 2085978496 ∧
    (__ntptime2timespec ⟨0, 0⟩).tv_sec ≠ (0 : Int) - 2208988800 := by
  decide

/-- C14 (amended): for every 32-bit coarse value the seconds field is coarse - 2208988800
reduced modulo 2^32: it equals coarse - 2208988800 when coarse is at least 2208988800 and
coarse - 2208988800 + 2^32 otherwise. -/
theorem ntptime2timespec_sec (t : ntptime) (h : t.coarse < 4294967296) :
    (2208988800 ≤ t.coarse → (__ntptime2timespec t).tv_sec = (t.coarse : Int) - 2208988800) ∧
    (t.coarse < 2208988800 →
      (__ntptime2timespec t).tv_sec = (t.coarse : Int) - 2208988800 + 4294967296) := by
  simp only [__ntptime2timespec, JAN_1970]
  omega

/-- Witness for `ntptime2timespec_sec`: coarse = 3913056000 gives 1704067200, and coarse = 5
gives 2085978501. -/
theorem ntptime2timespec_sec_witness :
    (__ntptime2timespec ⟨3913056000, 0⟩).tv_sec = ((3913056000 : Nat) : Int) - 2208988800 ∧
    (__ntptime2timespec ⟨5, 0⟩).tv_sec = ((5 : Nat) : Int) - 2208988800 + 4294967296 :=
  ⟨(ntptime2timespec_sec ⟨3913056000, 0⟩ (by decide)).1 (by decide),
    (ntptime2timespec_sec ⟨5, 0⟩ (by decide)).2 (by decide)⟩

/-- C15: for every local time whose seconds s satisfy 0 <= s <= 2085978495,
`__timespec2ntptime` sets coarse = s + 2208988800. -/
theorem timespec2ntptime_coarse (t : timespec) (h0 : 0 ≤ t.tv_sec)
    (h1 : t.tv_sec ≤ 2085978495) :
    ((__timespec2ntptime t).coarse : Int) = t.tv_sec + 2208988800 := by
  have e : add64 t.tv_sec (JAN_1970 : Int) = t.tv_sec + 2208988800 := by
    rw [add64, JAN_1970]
    exact wrap64_of_range _ (by norm_num; omega) (by norm_num; omega)
  simp only [__timespec2ntptime, e, toU32]
  omega

/-- Witness for `timespec2ntptime_coarse`: s = 0 gives coarse = 2208988800. -/
theorem timespec2ntptime_coarse_witness :
    (__timespec2ntptime ⟨0, 0⟩).coarse = 2208988800 ∧
    ((__timespec2ntptime ⟨0, 0⟩).coarse : Int) = 0 + 2208988800 :=
  ⟨by decide, timespec2ntptime_coarse ⟨0, 0⟩ (by decide) (by decide)⟩

/-! ## Offset under symmetric delay -/

/-- C16: for every reply and arrival reading (within the range where the millisecond values
fit in 64 bits) and all integers d and delta, if ms(T2) = ms(T1) + delta + d and
ms(T3) = ms(T4) - delta + d, then the offset calculator stores exactly d. -/
theorem dff_time_get_symmetric (e : Endian) (t4 : timeval) (p_packet : aw_ntp_packet_t)
    (old d delta : Int)
    (hs1 : -9000000000000000 ≤ t4.tv_sec) (hs2 : t4.tv_sec ≤ 9000000000000000)
    (hu1 : 0 ≤ t4.tv_usec) (hu2 : t4.tv_usec ≤ 999999)
    (h2 : spec_ms (__ntptime2timespec
            ⟨(__recv_ntp_packet_ntohl e p_packet).rxTm_s,
              (__recv_ntp_packet_ntohl e p_packet).rxTm_f⟩)
          = spec_ms (__ntptime2timespec
            ⟨(__recv_ntp_packet_ntohl e p_packet).origTm_s,
              (__recv_ntp_packet_ntohl e p_packet).origTm_f⟩) + delta + d)
    (h3 : spec_ms (__ntptime2timespec
            ⟨(__recv_ntp_packet_ntohl e p_packet).txTm_s,
              (__recv_ntp_packet_ntohl e p_packet).txTm_f⟩)
          = spec_ms (ntp_sys_timespec t4) - delta + d) :
    __dff_time_get e t4 p_packet old = d := by
  simp only [spec_ms, ntp_sys_timespec] at h2 h3
  simp only [__dff_time_get, ntp_sys_timespec]
  rw [dff_expression _ _ _ _ _ _ _ _
    (ntptime2timespec_sec_range _) (ntptime2timespec_nsec_range _)
    (ntptime2timespec_sec_range _) (ntptime2timespec_nsec_range _)
    (ntptime2timespec_sec_range _) (ntptime2timespec_nsec_range _)
    ⟨hs1, hs2⟩ ⟨hu1, hu2⟩, h2, h3]
  have hx : ∀ a b : Int, a + delta + d - a + (b - delta + d - b) = 2 * d := by
    intro a b; ring
  rw [hx]
  exact Int.mul_tdiv_cancel_left d (by decide)

/-- Witness for `dff_time_get_symmetric`: the specification's scenario T1 = 100.0 s,
T2 = 100.1 s, T3 = 100.15 s, T4 = 100.25 s (d = 0, delta = 100 ms) gives 0 ms. -/
theorem dff_time_get_symmetric_witness :
    __ntptime2timespec ⟨2208988900, 428253337⟩ = ⟨100, 100000000⟩ ∧
    __ntptime2timespec ⟨2208988900, 645492070⟩ = ⟨100, 150000000⟩ ∧
    __dff_time_get .big ⟨100, 250000⟩ packet_symmetric_demo 7 = 0 :=
  ⟨by decide, by decide,
    dff_time_get_symmetric .big ⟨100, 250000⟩ packet_symmetric_demo 7 0 100
      (by decide) (by decide) (by decide) (by decide) (by decide) (by decide)⟩

/-! ## Return values -/

/-- C17 (evaluation at failing inputs): with a NULL server address, a NULL output pointer, a
timeout or a short reply, `ntp_time_get` and `ntp_time_diff_get` return -1, not the
documented 1. -/
theorem failure_return_value :
    (ntp_time_get env_2024 none (some ⟨0, 0⟩)).ret = -1 ∧
    (ntp_time_get env_2024 (some "cn.pool.ntp.org") none).ret = -1 ∧
    (ntp_time_get env_timeout (some "cn.pool.ntp.org") (some ⟨0, 0⟩)).ret = -1 ∧
    (ntp_time_get env_short (some "cn.pool.ntp.org") (some ⟨0, 0⟩)).ret = -1 ∧
    (ntp_time_diff_get env_2024 none (some 0)).ret = -1 ∧
    (ntp_time_diff_get env_2024 (some "cn.pool.ntp.org") none).ret = -1 ∧
    (ntp_time_diff_get env_timeout (some "cn.pool.ntp.org") (some 0)).ret = -1 ∧
    (ntp_time_get env_2024 none (some ⟨0, 0⟩)).ret ≠ 1 := by
  decide

/-! ## Inverse fraction conversion -/

theorem USEC_eq (fine : Nat) (h : fine < 4294967296) :
    759 * ((fine / 1024 + 32768) / 65536) ≤ fine / 4096 ∧
    USEC fine = fine / 4096 - 759 * ((fine / 1024 + 32768) / 65536) := by
  have e1 : fine >>> 12 = fine / 4096 := by rw [Nat.shiftRight_eq_div_pow]
  have e2 : fine >>> 10 = fine / 1024 := by rw [Nat.shiftRight_eq_div_pow]
  have e3 : ∀ y : Nat, y >>> 16 = y / 65536 := by
    intro y; rw [Nat.shiftRight_eq_div_pow]
  simp only [USEC, e1, e2, e3]
  omega

/-- C18: for every 32-bit fine value the subtraction in `USEC` does not underflow, its result
is at most 999999, and the nanoseconds produced by `__ntptime2timespec` are that result times
1000: a multiple of 1000 in [0, 1e9). -/
theorem usec_range (t : ntptime) (h : t.fine < 4294967296) :
    759 * (((t.fine >>> 10) + 32768) >>> 16) ≤ t.fine >>> 12 ∧
    USEC t.fine = (t.fine >>> 12) - 759 * (((t.fine >>> 10) + 32768) >>> 16) ∧
    USEC t.fine ≤ 999999 ∧
    (__ntptime2timespec t).tv_nsec = (USEC t.fine : Int) * 1000 ∧
    0 ≤ (__ntptime2timespec t).tv_nsec ∧
    (__ntptime2timespec t).tv_nsec < 1000000000 ∧
    (__ntptime2timespec t).tv_nsec % 1000 = 0 := by
  have e1 : t.fine >>> 12 = t.fine / 4096 := by rw [Nat.shiftRight_eq_div_pow]
  have e2 : t.fine >>> 10 = t.fine / 1024 := by rw [Nat.shiftRight_eq_div_pow]
  have e3 : ∀ y : Nat, y >>> 16 = y / 65536 := by
    intro y; rw [Nat.shiftRight_eq_div_pow]
  obtain ⟨k1, k2⟩ := USEC_eq t.fine h
  have hmax : USEC t.fine ≤ 999999 := by
    by_cases hc : (t.fine / 1024 + 32768) / 65536 ≤ 63
    · omega
    · omega
  have hm : USEC t.fine * 1000 % 4294967296 = USEC t.fine * 1000 :=
    Nat.mod_eq_of_lt (by omega)
  simp only [__ntptime2timespec, e1, e2, e3, hm]
  refine ⟨k1, k2, hmax, ?_, ?_, ?_, ?_⟩
  · push_cast; rfl
  · omega
  · omega
  · omega

/-- Witness for `usec_range`: the largest fine value, 2^32 - 1, decodes to 999999000 ns. -/
theorem usec_range_witness :
    USEC 4294967295 ≤ 999999 ∧
    (__ntptime2timespec ⟨0, 4294967295⟩).tv_nsec = 999999000 ∧
    (__ntptime2timespec ⟨0, 4294967295⟩).tv_nsec < 1000000000 :=
  ⟨(usec_range ⟨0, 4294967295⟩ (by decide)).2.2.1, by decide,
    (usec_range ⟨0, 4294967295⟩ (by decide)).2.2.2.2.2.1⟩

/-- C19: for every local time with nanoseconds in [0, 1e9) and every millisecond offset d of
either sign whose negation is representable, the result of `timespec_correct` has
nanoseconds in [0, 1e9). -/
theorem timespec_correct_nsec_range (t : timespec) (d : Int)
    (hn : 0 ≤ t.tv_nsec ∧ t.tv_nsec < 1000000000)
    (hd : -9223372036854775808 < d ∧ d ≤ 9223372036854775807) :
    0 ≤ (timespec_correct t d).tv_nsec ∧ (timespec_correct t d).tv_nsec < 1000000000 := by
  obtain ⟨s, n⟩ := t
  simp only at hn
  by_cases h : 0 ≤ d
  · rw [timespec_correct_nonneg s n d hn ⟨h, hd.2⟩]
    split <;> simp only <;> omega
  · rw [timespec_correct_neg s n d hn ⟨hd.1, by omega⟩]
    split <;> simp only <;> omega

/-- Witness for `timespec_correct_nsec_range`: 10.2 s corrected by -700 ms, a borrow. -/
theorem timespec_correct_nsec_range_witness :
    0 ≤ (timespec_correct ⟨10, 200000000⟩ (-700)).tv_nsec ∧
    (timespec_correct ⟨10, 200000000⟩ (-700)).tv_nsec < 1000000000 :=
  timespec_correct_nsec_range ⟨10, 200000000⟩ (-700) (by decide) (by decide)

/-- C20: for every 32-bit fine value, `USEC fine` differs from the exact value
fine*10^6/2^32 by less than 381 in absolute value, stated both cleared of the denominator
over the integers and as a bound over the rationals. -/
theorem usec_accuracy (fine : Nat) (h : fine < 4294967296) :
    |(USEC fine : Int) * 4294967296 - (fine : Int) * 1000000| < 381 * 4294967296 ∧
    |(USEC fine : ℚ) - (fine : ℚ) * 1000000 / 4294967296| < 381 := by
  obtain ⟨k1, k2⟩ := USEC_eq fine h
  have i1 : -(381 * 4294967296) < (USEC fine : Int) * 4294967296 - (fine : Int) * 1000000 := by
    omega
  have i2 : (USEC fine : Int) * 4294967296 - (fine : Int) * 1000000 < 381 * 4294967296 := by
    omega
  refine ⟨abs_lt.mpr ⟨i1, i2⟩, ?_⟩
  have q1 : (-(381 * 4294967296) : ℚ) < (USEC fine : ℚ) * 4294967296 - (fine : ℚ) * 1000000 := by
    exact_mod_cast i1
  have q2 : (USEC fine : ℚ) * 4294967296 - (fine : ℚ) * 1000000 < 381 * 4294967296 := by
    exact_mod_cast i2
  rw [abs_lt]
  constructor <;> linarith

/-- Witness for `usec_accuracy`: fine = 2^25 - 1 decodes to 8191 us against an exact value of
about 7812.5 us. -/
theorem usec_accuracy_witness :
    USEC 33554431 = 8191 ∧
    |(USEC 33554431 : Int) * 4294967296 - ((33554431 : Nat) : Int) * 1000000|
      < 381 * 4294967296 :=
  ⟨by decide, (usec_accuracy 33554431 (by decide)).1⟩

end Ntp
